import Mathlib

/-!
Shallow embedding of src/templates/antigravity/specify_mcp.py.

The Python module defines two prompt-generator functions and registers them
on a FastMCP server object named mcp. Pure string-building functions become
Lean functions on String; the registry built at module load becomes a
concrete Lean value; dispatch and the surrounding process state, which live
in the external FastMCP library, are modelled from the spec as explicit
state passing.
-/

/-- Embeds the function specify of specify_mcp.py, lines 4 to 7: the body is
a single return of the Python f-string interpolating the argument goal
between the fixed text pieces. -/
def specify (goal : String) : String :=
  "Role: AI Architect. Goal: " ++ goal ++ ". Create a SPEC.md file."

/-- Embeds the function plan of specify_mcp.py, lines 9 to 12: a single
return of the f-string interpolating the argument spec_content. -/
def plan (spec_content : String) : String :=
  "Read this spec: " ++ spec_content ++ ". Create a PLAN.md."

/-- Parameter types that appear in the registered parameter schemas. The
source signatures annotate every parameter with the Python type str. -/
inductive ParamType where
  | string
deriving DecidableEq, Repr

/-- Modelled from the spec: the descriptor a registry entry carries for one
prompt generator, per section 4.3 of the spec, a mapping from generator
name to callable, description and parameter schema. The field values for
each concrete descriptor are read off the source: the function name, its
docstring, and its annotated signature. -/
structure PromptDescriptor where
  name : String
  description : String
  arguments : List (String × ParamType)
  fn : String → String

/-- Modelled from the spec: the registry object the external dispatcher
enumerates, holding the server name and the registered prompt descriptors
in registration order. -/
structure MCPServer where
  serverName : String
  prompts : List PromptDescriptor

/-- Descriptor registered by the decorator on the function specify,
specify_mcp.py lines 4 to 7: name from the function identifier, description
from the docstring, and one parameter goal annotated str. -/
def specifyDescriptor : PromptDescriptor :=
  { name := "specify"
  , description := "Start the Spec-Driven Development process."
  , arguments := [("goal", ParamType.string)]
  , fn := specify }

/-- Descriptor registered by the decorator on the function plan,
specify_mcp.py lines 9 to 12: name from the function identifier, description
from the docstring, and one parameter spec_content annotated str. -/
def planDescriptor : PromptDescriptor :=
  { name := "plan"
  , description := "Generate a plan from the spec."
  , arguments := [("spec_content", ParamType.string)]
  , fn := plan }

/-- Embeds the module-level state after line 12 of specify_mcp.py: the
FastMCP server created on line 2 with name Spec-Kit, after both decorator
registrations have run in order. The only later statement of the module,
the guarded mcp.run() on lines 14 and 15, starts the external serve loop
and registers nothing further. -/
def mcp : MCPServer :=
  { serverName := "Spec-Kit"
  , prompts := [specifyDescriptor, planDescriptor] }

/-- Modelled from the spec: lookup of a registered generator by name, the
routing step the spec assigns to the external dispatcher in section 2. -/
def getPrompt (m : MCPServer) (name : String) : Option PromptDescriptor :=
  m.prompts.find? (fun d => d.name == name)

/-- Modelled from the spec: the observable state surrounding one invocation,
the registry plus a file store, so that freedom from file input and output
and from registry mutation can be stated as frame conditions. The source
functions themselves touch neither. -/
structure World where
  server : MCPServer
  files : List (String × String)

/-- Modelled from the spec: one request dispatch per sections 2 and 6. The
dispatcher looks the generator up by name; on a hit it calls the generator
on the argument and relays the returned string, on a miss it rejects the
request before any generator logic runs. The resulting state is returned
explicitly so that the frame conditions are visible. -/
def invokePrompt (w : World) (name arg : String) : Option String × World :=
  match getPrompt w.server name with
  | some d => (some (d.fn arg), w)
  | none => (none, w)

/-- Modelled from the spec: a sequence of dispatched requests with the state
threaded from each call to the next, used to state that no hidden state
accumulates across calls. -/
def runCalls : World → List (String × String) → List (Option String) × World
  | w, [] => ([], w)
  | w, c :: cs =>
    let r := invokePrompt w c.1 c.2
    let rest := runCalls r.2 cs
    (r.1 :: rest.1, rest.2)

/-- Helper: dispatching one request never changes the state. -/
theorem invokePrompt_snd (w : World) (name arg : String) :
    (invokePrompt w name arg).2 = w := by
  unfold invokePrompt
  cases getPrompt w.server name <;> rfl

/-- Helper: appending between a fixed front piece and a fixed back piece is
injective on the middle piece. -/
theorem append_fixed_inj (p s xs ys : List Char)
    (h : p ++ xs ++ s = p ++ ys ++ s) : xs = ys := by
  rw [List.append_assoc, List.append_assoc] at h
  exact List.append_cancel_right (List.append_cancel_left h)

/-- C1: for every string g, specify g is exactly the fixed front text, then
g verbatim, then the fixed back text; at the level of character lists no
character is altered, escaped or dropped, whatever characters g holds. -/
theorem specify_exact (g : String) :
    specify g = "Role: AI Architect. Goal: " ++ g ++ ". Create a SPEC.md file." ∧
    (specify g).data =
      "Role: AI Architect. Goal: ".data ++ g.data ++ ". Create a SPEC.md file.".data := by
  refine ⟨rfl, ?_⟩
  simp [specify, String.data_append]

/-- C2: for every string s, plan s is exactly the fixed front text, then s
verbatim, then the fixed back text, with every character of s preserved,
newlines included. -/
theorem plan_exact (s : String) :
    plan s = "Read this spec: " ++ s ++ ". Create a PLAN.md." ∧
    (plan s).data =
      "Read this spec: ".data ++ s.data ++ ". Create a PLAN.md.".data := by
  refine ⟨rfl, ?_⟩
  simp [plan, String.data_append]

/-- C3: the generators are deterministic and stateless across calls: in any
sequence of dispatched calls, every result equals the result of dispatching
that same call alone against the initial state, and the final state equals
the initial state, so no call changes the result of any later call. -/
theorem generators_deterministic_stateless (w : World) (calls : List (String × String)) :
    (runCalls w calls).1 = calls.map (fun c => (invokePrompt w c.1 c.2).1) ∧
    (runCalls w calls).2 = w := by
  induction calls with
  | nil => exact ⟨rfl, rfl⟩
  | cons c cs ih =>
    simp only [runCalls, invokePrompt_snd, List.map]
    exact ⟨by rw [ih.1], ih.2⟩

/-- C4 counterexample: the registered descriptor of the plan generator does
not declare a parameter named specContent; the claim fails on the registry
built from the source signature. -/
theorem plan_param_not_specContent :
    ¬ ((getPrompt mcp "plan").map PromptDescriptor.arguments
        = some [("specContent", ParamType.string)]) := by
  decide

/-- C4 amended: the registered descriptor of the plan generator declares
exactly one string-typed parameter, and its name is spec_content, taken
from the source signature. -/
theorem plan_param_schema :
    (getPrompt mcp "plan").map PromptDescriptor.arguments
      = some [("spec_content", ParamType.string)] := by
  decide

/-- C5: both generators are total and cannot fail: dispatching specify or
plan on any argument string, against the registry of the module and any
file store, always yields a produced string and never the rejection
branch. -/
theorem generators_total (g s : String) (fs : List (String × String)) :
    (invokePrompt ⟨mcp, fs⟩ "specify" g).1 = some (specify g) ∧
    (invokePrompt ⟨mcp, fs⟩ "plan" s).1 = some (plan s) :=
  ⟨rfl, rfl⟩

/-- C6: the registry built at module load contains entries for both names,
specify and plan, each paired with its declared one-line docstring
description, and both are discoverable by lookup before any invocation. -/
theorem registry_descriptions :
    (getPrompt mcp "specify").map (fun d => d.description)
        = some "Start the Spec-Driven Development process." ∧
    (getPrompt mcp "plan").map (fun d => d.description)
        = some "Generate a plan from the spec." :=
  ⟨rfl, rfl⟩

/-- C7: on the empty input string, specify returns the template with nothing
between the Goal marker and the following period. -/
theorem specify_empty :
    specify "" = "Role: AI Architect. Goal: . Create a SPEC.md file." := rfl

/-- C8: neither generator performs any side effect: dispatching any request
leaves the file store, and indeed the whole observable state, unchanged;
the returned string is the only output. -/
theorem generators_no_side_effects (w : World) (name arg : String) :
    (invokePrompt w name arg).2.files = w.files ∧
    (invokePrompt w name arg).2 = w :=
  ⟨by rw [invokePrompt_snd], invokePrompt_snd w name arg⟩

/-- C9: each generator is injective, and their ranges are disjoint: equal
outputs of specify come from equal inputs, likewise for plan, and no
specify output ever equals a plan output. -/
theorem generators_injective_disjoint :
    (∀ a b : String, specify a = specify b → a = b) ∧
    (∀ a b : String, plan a = plan b → a = b) ∧
    (∀ a b : String, specify a ≠ plan b) := by
  refine ⟨?_, ?_, ?_⟩
  · intro a b h
    have hd := congrArg String.data h
    simp only [specify, String.data_append] at hd
    exact String.ext (append_fixed_inj _ _ _ _ hd)
  · intro a b h
    have hd := congrArg String.data h
    simp only [plan, String.data_append] at hd
    exact String.ext (append_fixed_inj _ _ _ _ hd)
  · intro a b h
    have hd := congrArg String.data h
    simp only [specify, plan, String.data_append] at hd
    simp only [List.cons_append] at hd
    injection hd with h1 h2
    injection h2 with h3 h4
    exact absurd h3 (by decide)

/-- C9 witness: the three parts applied at concrete inputs. -/
theorem generators_injective_disjoint_witness :
    ("build a login page" : String) = "build a login page" ∧
    ("## Overview" : String) = "## Overview" ∧
    specify "x" ≠ plan "y" :=
  ⟨generators_injective_disjoint.1 "build a login page" "build a login page" rfl,
   generators_injective_disjoint.2.1 "## Overview" "## Overview" rfl,
   generators_injective_disjoint.2.2 "x" "y"⟩

/-- C10: the registry holds exactly two entries, whose names in registration
order are specify then plan; being a value fixed at module load, with the
only later module statement starting the external serve loop, it is never
modified afterwards. -/
theorem registry_names_exact :
    mcp.prompts.map (fun d => d.name) = ["specify", "plan"] ∧
    mcp.prompts.length = 2 :=
  ⟨rfl, rfl⟩
